import Mathlib

/-!
Verification of the Decision & Retrieval Core of the Neely RAG trading
chatbot, as a shallow embedding of `src/lib/judge/index.ts`,
`src/lib/rag/search.ts` and the risk-gate override in
`src/app/api/chat/route.ts`.

Numbers from the JavaScript source are modelled as rationals (`ℚ`),
JavaScript `undefined`-able values as `Option`, and the fallible
evaluator call as `Except`.
-/

/-- Proposal tag: which model produced a scenario (source: `'gpt' | 'gemini'`). -/
inductive Scenario where
  | gpt
  | gemini
deriving DecidableEq

/-- Trade direction (source: `'LONG' | 'SHORT' | 'HOLD'`). -/
inductive Direction where
  | LONG
  | SHORT
  | HOLD
deriving DecidableEq

/-- The five trading states (source: `TradingState` in `src/lib/types`). -/
inductive TradingState where
  | WAITING
  | BREAKOUT_WATCH
  | CONFIRMED_IMPULSE
  | CONFIRMED_CORRECTION
  | INVALIDATED_RESET
deriving DecidableEq

/-- Output of the primary analysis model (source: `GPTOutput`). -/
structure GPTOutput where
  direction : Direction
  scenario_label : String
  confirmation_trigger : String
  invalidation_level : String
  risk_reward_estimate : ℚ
  rule_citations : List String
  explanation : Option String
deriving DecidableEq

/-- Output of the alternative analysis model (source: `GeminiAltOutput`). -/
structure GeminiAltOutput where
  direction : Direction
  scenario_label : String
  confirmation_trigger : String
  invalidation_level : String
  risk_reward_estimate : ℚ
  rule_citations : List String
  alternative_reasoning : String
deriving DecidableEq

/-- The JSON object extracted from the rule-validator evaluator's reply
(source: `scores` parsed in `scoreScenario`). -/
structure EvalOutput where
  rule_validity : Bool
  invalidation_clarity : ℚ
  risk_reward : ℚ
  structure_simplicity : ℚ
  resolution_speed : ℚ
  stop_distance : Option ℚ
deriving DecidableEq

/-- A scored scenario (source: `JudgeScore`). -/
structure JudgeScore where
  scenario : Scenario
  rule_validity : Bool
  invalidation_clarity : ℚ
  risk_reward : ℚ
  structure_simplicity : ℚ
  resolution_speed : ℚ
  total_score : ℚ
  stop_distance : Option ℚ
deriving DecidableEq

/-- The pair of scores recorded on a decision (source: `judge_scores` field). -/
structure JudgeScorePair where
  gpt : JudgeScore
  gemini : JudgeScore
deriving DecidableEq

/-- The final arbitrated decision (source: `FinalDecision`). -/
structure FinalDecision where
  symbol : String
  timeframe : String
  decision : Direction
  entry_trigger : String
  invalidation : String
  risk_percent : ℚ
  alternate_scenario : String
  state : TradingState
  selected_scenario : Scenario
  judge_scores : JudgeScorePair
  reasoning : String
deriving DecidableEq

/-- Result of the risk gate (source: `{ allowed: boolean; reason?: string }`). -/
structure RiskCheck where
  allowed : Bool
  reason : Option String
deriving DecidableEq

/-- JavaScript `Math.abs` on rationals. -/
def mathAbs (x : ℚ) : ℚ :=
  if x < 0 then -x else x

/-- JavaScript `x || d` for an optional numeric `x` (`undefined`, `0` and
`NaN` are falsy; `NaN` has no rational counterpart). -/
def jsNumOr (x : Option ℚ) (d : ℚ) : ℚ :=
  match x with
  | none => d
  | some v => if v = 0 then d else v

/-- JavaScript `s || d` for an optional string (`undefined` and `""` are falsy). -/
def jsStrOr (s : Option String) (d : String) : String :=
  match s with
  | none => d
  | some v => if v = "" then d else v

/-- Source `selectBestScenario` (`src/lib/judge/index.ts` lines 171-196):
rule-validity knockouts, then a two-point total-score margin, then the
smaller `stop_distance || 999`. -/
def selectBestScenario (gptScore geminiScore : JudgeScore) : Scenario :=
  if !gptScore.rule_validity && !geminiScore.rule_validity then
    Scenario.gpt
  else if !gptScore.rule_validity then
    Scenario.gemini
  else if !geminiScore.rule_validity then
    Scenario.gpt
  else
    let scoreDiff := mathAbs (gptScore.total_score - geminiScore.total_score)
    if scoreDiff ≥ 2 then
      if gptScore.total_score > geminiScore.total_score then Scenario.gpt else Scenario.gemini
    else
      let gptStop := jsNumOr gptScore.stop_distance 999
      let geminiStop := jsNumOr geminiScore.stop_distance 999
      if gptStop ≤ geminiStop then Scenario.gpt else Scenario.gemini

/-- Source `calculateRiskPercent` (lines 201-207). -/
def calculateRiskPercent (riskReward : ℚ) : ℚ :=
  if riskReward ≥ 3 then 2
  else if riskReward ≥ 2 then 3/2
  else 1

/-- Success path of `scoreScenario` (lines 134-151): build a `JudgeScore`
from the evaluator's parsed reply; the total is the sum of the four
sub-scores when `rule_validity` holds and `0` otherwise. -/
def computeJudgeScore (scenario : Scenario) (scores : EvalOutput) : JudgeScore :=
  { scenario := scenario
    rule_validity := scores.rule_validity
    invalidation_clarity := scores.invalidation_clarity
    risk_reward := scores.risk_reward
    structure_simplicity := scores.structure_simplicity
    resolution_speed := scores.resolution_speed
    total_score :=
      if scores.rule_validity then
        scores.invalidation_clarity + scores.risk_reward +
          scores.structure_simplicity + scores.resolution_speed
      else 0
    stop_distance := scores.stop_distance }

/-- Catch branch of `scoreScenario` (lines 152-165): the fixed neutral
fallback score. -/
def fallbackJudgeScore (scenario : Scenario) : JudgeScore :=
  { scenario := scenario
    rule_validity := true
    invalidation_clarity := 1
    risk_reward := 1
    structure_simplicity := 1
    resolution_speed := 1
    total_score := 4
    stop_distance := some 2 }

/-- Source `scoreScenario` (lines 84-166) with the evaluator call made
explicit: a successful call yields the parsed `EvalOutput`, any failure
(malformed reply, thrown error) is the `Except.error` branch. -/
def scoreScenario (scenario : Scenario) (evalResult : Except String EvalOutput) : JudgeScore :=
  match evalResult with
  | Except.ok scores => computeJudgeScore scenario scores
  | Except.error _ => fallbackJudgeScore scenario

/-- Boolean test that the first list is an initial segment of the second. -/
def charsPrefixOf : List Char → List Char → Bool
  | [], _ => true
  | _ :: _, [] => false
  | a :: as, b :: bs => a == b && charsPrefixOf as bs

/-- Boolean substring test on character lists (JavaScript `includes`). -/
def charsContains (needle : List Char) : List Char → Bool
  | [] => charsPrefixOf needle []
  | b :: bs => charsPrefixOf needle (b :: bs) || charsContains needle bs

/-- JavaScript `haystack.toLowerCase().includes(needle)` for an
already-lower-case `needle` (ASCII case folding). -/
def lowerIncludes (haystack needle : String) : Bool :=
  charsContains needle.data (haystack.data.map Char.toLower)

/-- Source `determineNextState` (lines 212-249), with the two fields of the
selected output it reads passed explicitly. -/
def determineNextState (currentState : TradingState) (direction : Direction)
    (scenario_label : String) : TradingState :=
  if direction = Direction.HOLD then
    TradingState.WAITING
  else
    match currentState with
    | TradingState.WAITING => TradingState.BREAKOUT_WATCH
    | TradingState.BREAKOUT_WATCH =>
      if lowerIncludes scenario_label "impulse" then TradingState.CONFIRMED_IMPULSE
      else if lowerIncludes scenario_label "correction" then TradingState.CONFIRMED_CORRECTION
      else TradingState.BREAKOUT_WATCH
    | TradingState.CONFIRMED_IMPULSE => currentState
    | TradingState.CONFIRMED_CORRECTION => currentState
    | TradingState.INVALIDATED_RESET => TradingState.WAITING

/-- JavaScript template interpolation of a score value (`${score}`):
integer-valued rationals print without a decimal point; non-integer values
never arise from the source's 0-2 integer sub-scores. -/
def jsRatString (q : ℚ) : String :=
  if q.den = 1 then toString q.num else toString q

/-- JavaScript `Number.toFixed(2)`: two decimal places, rounding half up. -/
def toFixed2 (q : ℚ) : String :=
  let n : Int := round (q * 100)
  let sign := if n < 0 then "-" else ""
  let m := n.natAbs
  let frac := m % 100
  let fracStr := (if frac < 10 then "0" else "") ++ toString frac
  sign ++ toString (m / 100) ++ "." ++ fracStr

/-- Source `generateReasoning` (lines 254-289). -/
def generateReasoning (gptScore geminiScore : JudgeScore) (selected : Scenario) : String :=
  let selectedScore := if selected = Scenario.gpt then gptScore else geminiScore
  let otherScore := if selected = Scenario.gpt then geminiScore else gptScore
  let selectedName := if selected = Scenario.gpt then "ChatGPT" else "Gemini"
  let otherName := if selected = Scenario.gpt then "Gemini" else "ChatGPT"
  let reasoning := "**" ++ selectedName ++ " 선택!** "
  let reasoning :=
    if !otherScore.rule_validity then
      reasoning ++ otherName ++ "는 NEoWave 규칙 위반이 있었어. "
    else reasoning
  let reasoning := reasoning ++ "점수는 " ++ jsRatString selectedScore.total_score ++
    "/8 vs " ++ jsRatString otherScore.total_score ++ "/8이야. "
  let strengths :=
    (if selectedScore.invalidation_clarity = 2 then ["무효화 조건이 명확함"] else []) ++
    (if selectedScore.risk_reward = 2 then ["리스크/보상비 훌륭함"] else []) ++
    (if selectedScore.structure_simplicity = 2 then ["구조가 심플함"] else []) ++
    (if selectedScore.resolution_speed = 2 then ["빠른 결론 가능"] else [])
  let reasoning :=
    if strengths.length > 0 then
      reasoning ++ "강점: " ++ String.intercalate ", " strengths ++ ". "
    else reasoning
  let stopText :=
    match selectedScore.stop_distance with
    | none => "undefined"
    | some q => toFixed2 q
  reasoning ++ "손절 거리는 " ++ stopText ++ "% 정도야."

/-- The inline zero score recorded for both models on the general-chat path
(lines 37-38). -/
def generalChatScore (scenario : Scenario) : JudgeScore :=
  { scenario := scenario
    rule_validity := true
    invalidation_clarity := 0
    risk_reward := 0
    structure_simplicity := 0
    resolution_speed := 0
    total_score := 0
    stop_distance := none }

/-- Source `judgeScenarios` (lines 10-79), with its effects made explicit:
`randomChoice` is the value of `Math.random() > 0.5` and the two `Except`
arguments are the outcomes of the evaluator calls made by `scoreScenario`. -/
def judgeScenarios (gptOutput : GPTOutput) (geminiOutput : GeminiAltOutput)
    (symbol timeframe : String) (currentState : TradingState)
    (randomChoice : Bool) (gptEval gemEval : Except String EvalOutput) : FinalDecision :=
  if gptOutput.scenario_label = "일반 대화" then
    { symbol := symbol
      timeframe := timeframe
      decision := Direction.HOLD
      entry_trigger := "해당 없음"
      invalidation := "해당 없음"
      risk_percent := 0
      alternate_scenario :=
        if randomChoice then geminiOutput.scenario_label else gptOutput.scenario_label
      state := TradingState.WAITING
      selected_scenario := if randomChoice then Scenario.gpt else Scenario.gemini
      judge_scores := ⟨generalChatScore Scenario.gpt, generalChatScore Scenario.gemini⟩
      reasoning :=
        if randomChoice then
          "ChatGPT 선택! " ++ jsStrOr gptOutput.explanation "간결하고 명확한 답변이야."
        else
          "Gemini 선택! " ++ jsStrOr (some geminiOutput.alternative_reasoning) "더 친근하고 재미있는 답변이야!" }
  else
    let gptScore := scoreScenario Scenario.gpt gptEval
    let geminiScore := scoreScenario Scenario.gemini gemEval
    let selectedScenario := selectBestScenario gptScore geminiScore
    let selDirection :=
      if selectedScenario = Scenario.gpt then gptOutput.direction else geminiOutput.direction
    let selLabel :=
      if selectedScenario = Scenario.gpt then gptOutput.scenario_label else geminiOutput.scenario_label
    let nextState := determineNextState currentState selDirection selLabel
    { symbol := symbol
      timeframe := timeframe
      decision := selDirection
      entry_trigger :=
        if selectedScenario = Scenario.gpt then gptOutput.confirmation_trigger
        else geminiOutput.confirmation_trigger
      invalidation :=
        if selectedScenario = Scenario.gpt then gptOutput.invalidation_level
        else geminiOutput.invalidation_level
      risk_percent := calculateRiskPercent
        (if selectedScenario = Scenario.gpt then gptOutput.risk_reward_estimate
         else geminiOutput.risk_reward_estimate)
      alternate_scenario :=
        if selectedScenario = Scenario.gpt then geminiOutput.scenario_label
        else gptOutput.scenario_label
      state := nextState
      selected_scenario := selectedScenario
      judge_scores := ⟨gptScore, geminiScore⟩
      reasoning := generateReasoning gptScore geminiScore selectedScenario }

/-- Source `checkRiskManagement` (lines 294-331); the two `parseInt(env)`
limits are passed as arguments (default `3` in the source). -/
def checkRiskManagement (decision : FinalDecision)
    (activePositions consecutiveLosses : Int)
    (maxPositions maxLosses : Int) : RiskCheck :=
  if activePositions ≥ maxPositions then
    { allowed := false
      reason := some ("Maximum concurrent positions (" ++ toString maxPositions ++ ") reached") }
  else if consecutiveLosses ≥ maxLosses then
    { allowed := false
      reason := some (toString maxLosses ++ " consecutive losses - system paused") }
  else
    let minRR : ℚ := 3/2
    let gptRR := decision.judge_scores.gpt.risk_reward
    let geminiRR := decision.judge_scores.gemini.risk_reward
    if gptRR < minRR ∧ geminiRR < minRR then
      { allowed := false
        reason := some "Risk/Reward below minimum threshold (1.5)" }
    else
      { allowed := true, reason := none }

/-- The orchestrator's risk override (`src/app/api/chat/route.ts` lines
155-159): when the gate blocks, force the direction to `HOLD` and append
the block reason to the reasoning text. -/
def applyRiskOverride (finalDecision : FinalDecision) (riskCheck : RiskCheck) : FinalDecision :=
  if !riskCheck.allowed then
    { finalDecision with
        decision := Direction.HOLD
        reasoning := finalDecision.reasoning ++ " [Risk Override: " ++
          (match riskCheck.reason with
           | some r => r
           | none => "undefined") ++ "]" }
  else finalDecision

/-- Knowledge-fragment category (source: `chunk_type` column). -/
inductive ChunkType where
  | rule
  | exception
  | definition
deriving DecidableEq

/-- A retrievable knowledge fragment (source: `KnowledgeChunk` without the
embedding vector, which the search code never reads). -/
structure KnowledgeChunk where
  id : String
  document_id : String
  chunk_type : ChunkType
  section_title : String
  content : String
  source_page : Nat
deriving DecidableEq

/-- A retrieval result (source: `RAGContext`). -/
structure RAGContext where
  chunks : List KnowledgeChunk
  similarity_scores : List ℚ
  total_retrieved : Nat
deriving DecidableEq

/-- Source `searchKnowledge` (`src/lib/rag/search.ts` lines 19-82) from the
store reply onward: `storeReply` is what the `match_knowledge_chunks` RPC
returned (requested with `match_count = topK*2`); the code then filters by
the optional chunk type and document id and truncates to `topK`. -/
def searchKnowledge (storeReply : List (KnowledgeChunk × ℚ)) (topK : Nat)
    (chunkTypeFilter : Option ChunkType) (documentIdFilter : Option String) :
    RAGContext :=
  let chunks1 :=
    match chunkTypeFilter with
    | some t => storeReply.filter (fun p : KnowledgeChunk × ℚ => p.1.chunk_type = t)
    | none => storeReply
  let chunks2 :=
    match documentIdFilter with
    | some d => chunks1.filter (fun p : KnowledgeChunk × ℚ => p.1.document_id = d)
    | none => chunks1
  let chunks := chunks2.take topK
  { chunks := chunks.map Prod.fst
    similarity_scores := chunks.map Prod.snd
    total_retrieved := (chunks.map Prod.fst).length }

/-- Source `prioritySearch` (lines 88-120): three independent
`searchKnowledge` calls (for `rule`, `exception`, `definition` with
`topK/2`, `topK/4`, `topK/4`), concatenated rules-first and truncated to
`topK`; the three store replies are passed explicitly. -/
def prioritySearch (ruleReply excReply defReply : List (KnowledgeChunk × ℚ))
    (topK : Nat) : RAGContext :=
  let rules := searchKnowledge ruleReply (topK / 2) (some ChunkType.rule) none
  let exceptions := searchKnowledge excReply (topK / 4) (some ChunkType.exception) none
  let definitions := searchKnowledge defReply (topK / 4) (some ChunkType.definition) none
  let allChunks := rules.chunks ++ exceptions.chunks ++ definitions.chunks
  let allScores := rules.similarity_scores ++ exceptions.similarity_scores ++
    definitions.similarity_scores
  { chunks := allChunks.take topK
    similarity_scores := allScores.take topK
    total_retrieved := allChunks.length }

/-- One entry of the two insertion-ordered maps built by `hybridSearch`
(`combinedChunks : id → chunk` and `scores : id → score`, always populated
together): key, chunk, score. -/
abbrev HybridEntry := String × KnowledgeChunk × ℚ

/-- JavaScript `Map.prototype.set`: update in place if the key exists,
else append. -/
def mapSet (k : String) (v : KnowledgeChunk × ℚ) : List HybridEntry → List HybridEntry
  | [] => [(k, v)]
  | e :: rest => if e.1 = k then (k, v) :: rest else e :: mapSet k v rest

/-- JavaScript `Map.prototype.has`. -/
def mapHas (k : String) : List HybridEntry → Bool
  | [] => false
  | e :: rest => k = e.1 || mapHas k rest

/-- Body of the vector `forEach` loop (lines 221-224): insert a vector
result keyed by its fragment id, with its similarity score. -/
def vectorStep (m : List HybridEntry) (p : KnowledgeChunk × ℚ) : List HybridEntry :=
  mapSet p.1.id (p.1, p.2) m

/-- Body of the keyword `forEach` loop (lines 227-232): append a
keyword-only match with the fixed score `0.5`. -/
def keywordStep (m : List HybridEntry) (c : KnowledgeChunk) : List HybridEntry :=
  if mapHas c.id m then m else m ++ [(c.id, (c, 1/2))]

/-- The combined map built by `hybridSearch` (lines 218-233): vector
results are inserted with their similarity score, then keyword results not
already present are appended with the fixed score `0.5`. -/
def hybridCombine (vectorResults : List (KnowledgeChunk × ℚ))
    (keywordData : List KnowledgeChunk) : List HybridEntry :=
  let m1 := vectorResults.foldl vectorStep []
  keywordData.foldl keywordStep m1

/-- The comparator of `hybridSearch`'s sort (line 237), as a relation:
entry `a` may precede entry `b` when `b`'s score does not exceed `a`'s. -/
def hybridGE (a b : HybridEntry) : Prop := b.2.2 ≤ a.2.2

instance : DecidableRel hybridGE := fun a b => inferInstanceAs (Decidable (b.2.2 ≤ a.2.2))

instance : IsTotal HybridEntry hybridGE :=
  ⟨fun a b => (le_total b.2.2 a.2.2).imp id id⟩

instance : IsTrans HybridEntry hybridGE :=
  ⟨fun _ _ _ h1 h2 => le_trans h2 h1⟩

/-- Source `hybridSearch` (lines 201-245) from the two replies onward:
`vectorResults` is the vector search's (chunk, similarity) list and
`keywordData` the full-text matches; entries are combined, sorted by score
descending (JavaScript's sort is stable, modelled by a stable insertion
sort) and truncated to `topK`. -/
def hybridSearch (vectorResults : List (KnowledgeChunk × ℚ))
    (keywordData : List KnowledgeChunk) (topK : Nat) : RAGContext :=
  let sortedEntries :=
    ((hybridCombine vectorResults keywordData).insertionSort hybridGE).take topK
  { chunks := sortedEntries.map (fun e => e.2.1)
    similarity_scores := sortedEntries.map (fun e => e.2.2)
    total_retrieved := sortedEntries.length }

/-- The arbitration selector exactly as the words of claim C1 state it,
with `none` where those words do not determine a winner (equal stop
distances); only a missing stop distance is mapped to the worst case. -/
def selectClaimC1 (scoreA scoreB : JudgeScore) : Option Scenario :=
  if !scoreA.rule_validity && !scoreB.rule_validity then some Scenario.gpt
  else if !scoreA.rule_validity then some Scenario.gemini
  else if !scoreB.rule_validity then some Scenario.gpt
  else if mathAbs (scoreA.total_score - scoreB.total_score) ≥ 2 then
    some (if scoreA.total_score > scoreB.total_score then Scenario.gpt else Scenario.gemini)
  else
    let stopA := match scoreA.stop_distance with | none => (999 : ℚ) | some v => v
    let stopB := match scoreB.stop_distance with | none => (999 : ℚ) | some v => v
    if stopA < stopB then some Scenario.gpt
    else if stopB < stopA then some Scenario.gemini
    else none

/-- The amended claim C1 in the spec's own vocabulary: as claim C1, except
that a stop distance of exactly zero is treated as worst-case (999) just
like a missing one, and a tie in effective stop distance selects tag A. -/
def selectSpecC1 (scoreA scoreB : JudgeScore) : Scenario :=
  if !scoreA.rule_validity && !scoreB.rule_validity then Scenario.gpt
  else if !scoreA.rule_validity then Scenario.gemini
  else if !scoreB.rule_validity then Scenario.gpt
  else if mathAbs (scoreA.total_score - scoreB.total_score) ≥ 2 then
    (if scoreA.total_score > scoreB.total_score then Scenario.gpt else Scenario.gemini)
  else
    let effA := match scoreA.stop_distance with
      | none => (999 : ℚ)
      | some v => if v = 0 then 999 else v
    let effB := match scoreB.stop_distance with
      | none => (999 : ℚ)
      | some v => if v = 0 then 999 else v
    if effA < effB then Scenario.gpt
    else if effB < effA then Scenario.gemini
    else Scenario.gpt

/-- A rule-valid score with total 4 and reported stop distance 0. -/
def scoreValid4Stop0 : JudgeScore :=
  ⟨Scenario.gpt, true, 1, 1, 1, 1, 4, some 0⟩

/-- A rule-valid score with total 4 and reported stop distance 1. -/
def scoreValid4Stop1 : JudgeScore :=
  ⟨Scenario.gemini, true, 1, 1, 1, 1, 4, some 1⟩

/-- A rule-valid score with total 4 and reported stop distance 2. -/
def scoreValid4Stop2 : JudgeScore :=
  ⟨Scenario.gpt, true, 1, 1, 1, 1, 4, some 2⟩

/-- Claim C1 (counterexample): with both scores rule-valid, equal totals,
stop distance 0 for A and 1 for B, the claim as stated picks A (0 is the
smaller reported stop distance and is not missing), but the code picks B
because `stop_distance || 999` also treats 0 as falsy. -/
theorem selectClaimC1_counterexample :
    selectClaimC1 scoreValid4Stop0 scoreValid4Stop1 = some Scenario.gpt ∧
    selectBestScenario scoreValid4Stop0 scoreValid4Stop1 = Scenario.gemini := by
  constructor <;>
    norm_num [selectClaimC1, selectBestScenario, scoreValid4Stop0, scoreValid4Stop1,
      mathAbs, jsNumOr]

/-- Claim C1 (amended): the selector is the claimed pure function of the
two scores once a zero stop distance is treated as worst-case like a
missing one and ties in effective stop distance go to tag A. -/
theorem selectBestScenario_eq_selectSpecC1 :
    ∀ scoreA scoreB : JudgeScore, selectBestScenario scoreA scoreB = selectSpecC1 scoreA scoreB := by
  intro a b
  unfold selectBestScenario selectSpecC1 jsNumOr
  cases ha : a.rule_validity <;> cases hb : b.rule_validity <;> simp only [Bool.not_true,
    Bool.not_false, Bool.true_and, Bool.false_and, Bool.and_true, Bool.and_false,
    Bool.and_self, if_true, if_false, ite_true, ite_false]
  split_ifs <;> first
    | rfl
    | (exfalso
       rename_i hle hlt hlt2
       rcases lt_trichotomy
         (match a.stop_distance with | none => (999:ℚ) | some v => if v = 0 then 999 else v)
         (match b.stop_distance with | none => (999:ℚ) | some v => if v = 0 then 999 else v)
         with h | h | h <;> simp_all <;> linarith)

/-- Swapping the operands of subtraction does not change `Math.abs`. -/
theorem mathAbs_sub_comm (x y : ℚ) : mathAbs (y - x) = mathAbs (x - y) := by
  unfold mathAbs
  split_ifs <;> linarith

/-- Claim C2 (counterexample): with one rule-valid score `s` on both sides
(so not the documented double-failure exception), the selector returns tag
A for `select(s, s)`, and the swapped call is the same call, so it cannot
return tag B as the claim demands. -/
theorem selectBestScenario_swap_counterexample :
    selectBestScenario scoreValid4Stop2 scoreValid4Stop2 = Scenario.gpt ∧
    scoreValid4Stop2.rule_validity = true ∧
    Scenario.gpt ≠ Scenario.gemini := by
  refine ⟨?_, rfl, by simp⟩
  norm_num [selectBestScenario, scoreValid4Stop2, mathAbs, jsNumOr]

/-- Claim C2 (amended): the selector is symmetric under swapping the two
arguments with swapped roles, except when both scores fail rule-validity
or when both are rule-valid, the totals are within 1 point and the two
effective stop distances (`stop_distance || 999`) are equal — in those
cases tag A wins both orientations. -/
theorem selectBestScenario_swap (a b : JudgeScore)
    (h1 : ¬(a.rule_validity = false ∧ b.rule_validity = false))
    (h2 : ¬(a.rule_validity = true ∧ b.rule_validity = true ∧
      mathAbs (a.total_score - b.total_score) < 2 ∧
      jsNumOr a.stop_distance 999 = jsNumOr b.stop_distance 999)) :
    selectBestScenario a b = Scenario.gpt ↔ selectBestScenario b a = Scenario.gemini := by
  cases ha : a.rule_validity <;> cases hb : b.rule_validity
  · exact absurd ⟨ha, hb⟩ h1
  · simp [selectBestScenario, ha, hb]
  · simp [selectBestScenario, ha, hb]
  · simp only [selectBestScenario, ha, hb, Bool.not_true, Bool.and_self, Bool.false_and,
      Bool.and_false, if_neg, ite_false, Bool.false_eq_true, if_false]
    rw [mathAbs_sub_comm a.total_score b.total_score]
    by_cases hd : mathAbs (a.total_score - b.total_score) ≥ 2
    · rw [if_pos hd, if_pos hd]
      have hne : a.total_score ≠ b.total_score := by
        intro he
        rw [he, sub_self] at hd
        simp [mathAbs] at hd
        linarith
      rcases lt_or_gt_of_ne hne with hlt | hgt
      · rw [if_neg (by exact not_lt_of_gt hlt : ¬a.total_score > b.total_score),
          if_pos (by exact hlt : b.total_score > a.total_score)]
        simp
      · rw [if_pos hgt, if_neg (by exact not_lt_of_gt hgt : ¬b.total_score > a.total_score)]
        simp
    · rw [if_neg hd, if_neg hd]
      have hs : jsNumOr a.stop_distance 999 ≠ jsNumOr b.stop_distance 999 := by
        intro he
        exact h2 ⟨ha, hb, lt_of_not_ge hd, he⟩
      rcases lt_or_gt_of_ne hs with hlt | hgt
      · rw [if_pos (le_of_lt hlt), if_neg (not_le_of_gt hlt)]
        simp
      · rw [if_neg (not_le_of_gt hgt), if_pos (le_of_lt hgt)]
        simp

/-- Witness for the amended C2 theorem at a concrete rule-valid pair with
stop distances 1 and 2. -/
theorem selectBestScenario_swap_witness :
    ¬(scoreValid4Stop1.rule_validity = false ∧ scoreValid4Stop2.rule_validity = false) ∧
    ¬(scoreValid4Stop1.rule_validity = true ∧ scoreValid4Stop2.rule_validity = true ∧
      mathAbs (scoreValid4Stop1.total_score - scoreValid4Stop2.total_score) < 2 ∧
      jsNumOr scoreValid4Stop1.stop_distance 999 = jsNumOr scoreValid4Stop2.stop_distance 999) ∧
    (selectBestScenario scoreValid4Stop1 scoreValid4Stop2 = Scenario.gpt ↔
      selectBestScenario scoreValid4Stop2 scoreValid4Stop1 = Scenario.gemini) := by
  refine ⟨by norm_num [scoreValid4Stop1, scoreValid4Stop2],
    by norm_num [scoreValid4Stop1, scoreValid4Stop2, mathAbs, jsNumOr], ?_⟩
  exact selectBestScenario_swap scoreValid4Stop1 scoreValid4Stop2
    (by norm_num [scoreValid4Stop1, scoreValid4Stop2])
    (by norm_num [scoreValid4Stop1, scoreValid4Stop2, mathAbs, jsNumOr])

/-- Claim C10: in the selector a reported stop distance of exactly 0 is
interchangeable with a missing one (both are falsy for `|| 999`), and in
the rule-valid equal-totals tie-break a zero stop distance therefore loses
to any positive stop distance below 999: the selector returns tag B, the
proposal with the larger reported stop distance. -/
theorem selectBestScenario_zero_stop :
    (∀ a b : JudgeScore,
      selectBestScenario { a with stop_distance := some 0 } b =
        selectBestScenario { a with stop_distance := none } b ∧
      selectBestScenario a { b with stop_distance := some 0 } =
        selectBestScenario a { b with stop_distance := none }) ∧
    selectBestScenario scoreValid4Stop0 scoreValid4Stop1 = Scenario.gemini ∧
    (∀ q : ℚ, 0 < q → q < 999 →
      selectBestScenario scoreValid4Stop0 { scoreValid4Stop1 with stop_distance := some q } =
        Scenario.gemini) := by
  refine ⟨fun a b => ⟨?_, ?_⟩, ?_, ?_⟩
  · simp [selectBestScenario, jsNumOr]
  · simp [selectBestScenario, jsNumOr]
  · norm_num [selectBestScenario, scoreValid4Stop0, scoreValid4Stop1, mathAbs, jsNumOr]
  · intro q h1 h2
    have hq0 : ¬(q = 0) := ne_of_gt h1
    simp only [selectBestScenario, scoreValid4Stop0, scoreValid4Stop1, mathAbs, jsNumOr]
    norm_num [hq0]
    intro h
    linarith

/-- Witness for the quantified tie-break part of the C10 theorem at the
concrete positive stop distance 1. -/
theorem selectBestScenario_zero_stop_witness :
    (0 : ℚ) < 1 ∧ (1 : ℚ) < 999 ∧
    selectBestScenario scoreValid4Stop0 { scoreValid4Stop1 with stop_distance := some 1 } =
      Scenario.gemini :=
  ⟨by norm_num, by norm_num,
    selectBestScenario_zero_stop.2.2 1 (by norm_num) (by norm_num)⟩

/-- Claim C3: every `ScenarioScore` the system produces (scorer success
path, scorer fallback, general-chat path) has a non-zero total only if it
is rule-valid; in particular an evaluator reply with `rule_validity =
false` yields total 0 whatever the four sub-scores are. -/
theorem scenarioScore_total_zero_invariant :
    (∀ (s : Scenario) (ev : Except String EvalOutput),
      (scoreScenario s ev).total_score ≠ 0 → (scoreScenario s ev).rule_validity = true) ∧
    (∀ (s : Scenario) (scores : EvalOutput), scores.rule_validity = false →
      (computeJudgeScore s scores).total_score = 0) ∧
    (∀ s : Scenario,
      (generalChatScore s).total_score = 0 ∧ (generalChatScore s).rule_validity = true) := by
  refine ⟨?_, ?_, ?_⟩
  · intro s ev hne
    cases ev with
    | ok scores =>
      cases hv : scores.rule_validity
      · exact absurd (by simp [scoreScenario, computeJudgeScore, hv]) hne
      · simp [scoreScenario, computeJudgeScore, hv]
    | error e => simp [scoreScenario, fallbackJudgeScore]
  · intro s scores hv
    simp [computeJudgeScore, hv]
  · intro s
    exact ⟨rfl, rfl⟩

/-- Witness for the C3 theorem: the fallback score (total 4 ≠ 0) is
rule-valid, and an invalid evaluator reply with maximal sub-scores still
totals 0. -/
theorem scenarioScore_total_zero_invariant_witness :
    (scoreScenario Scenario.gpt (Except.error "malformed")).rule_validity = true ∧
    (computeJudgeScore Scenario.gemini
      ⟨false, 2, 2, 2, 2, some 1⟩).total_score = 0 :=
  ⟨scenarioScore_total_zero_invariant.1 Scenario.gpt (Except.error "malformed")
      (by norm_num [scoreScenario, fallbackJudgeScore]),
    scenarioScore_total_zero_invariant.2.1 Scenario.gemini ⟨false, 2, 2, 2, 2, some 1⟩ rfl⟩

/-- Claim C6: on any evaluator failure the scorer returns the fixed
neutral score — all four sub-scores 1, rule-validity true, total 4, stop
distance 2.0 — for either proposal tag, so a scoring failure still yields
a usable score instead of aborting. -/
theorem scoreScenario_failure_fallback :
    ∀ (s : Scenario) (e : String),
      (scoreScenario s (Except.error e)).invalidation_clarity = 1 ∧
      (scoreScenario s (Except.error e)).risk_reward = 1 ∧
      (scoreScenario s (Except.error e)).structure_simplicity = 1 ∧
      (scoreScenario s (Except.error e)).resolution_speed = 1 ∧
      (scoreScenario s (Except.error e)).rule_validity = true ∧
      (scoreScenario s (Except.error e)).total_score = 4 ∧
      (scoreScenario s (Except.error e)).stop_distance = some 2 ∧
      (scoreScenario s (Except.error e)).scenario = s := by
  intro s e
  refine ⟨rfl, rfl, rfl, rfl, rfl, rfl, rfl, rfl⟩

/-- The transition function exactly as claim C4 describes it, reading the
three label clauses for `BREAKOUT_WATCH` as the sequential check the
spec's "otherwise" implies. -/
def determineNextStateSpecC4 (currentState : TradingState) (direction : Direction)
    (label : String) : TradingState :=
  if direction = Direction.HOLD then
    TradingState.WAITING
  else
    match currentState with
    | TradingState.WAITING => TradingState.BREAKOUT_WATCH
    | TradingState.BREAKOUT_WATCH =>
      if lowerIncludes label "impulse" then TradingState.CONFIRMED_IMPULSE
      else if lowerIncludes label "correction" then TradingState.CONFIRMED_CORRECTION
      else TradingState.BREAKOUT_WATCH
    | TradingState.CONFIRMED_IMPULSE => TradingState.CONFIRMED_IMPULSE
    | TradingState.CONFIRMED_CORRECTION => TradingState.CONFIRMED_CORRECTION
    | TradingState.INVALIDATED_RESET => TradingState.WAITING

/-- Claim C4: the code's transition function agrees with the claimed one
on every state, direction and label. -/
theorem determineNextState_eq_specC4 :
    ∀ (st : TradingState) (dir : Direction) (label : String),
      determineNextState st dir label = determineNextStateSpecC4 st dir label := by
  intro st dir label
  cases st <;> cases dir <;> rfl

/-- Claim C5: the risk gate checks its three conditions in order and
short-circuits on the first failure — position count at or above the
maximum (boundary included since the test is `≥`), then consecutive
losses at or above the threshold, then both risk/reward sub-scores below
1.5 — and when it blocks, the orchestrator forces the decision's
direction to `HOLD` and appends the block reason to the reasoning text,
leaving every other field of the decision unchanged. -/
theorem checkRiskManagement_gate_spec :
    ∀ (d : FinalDecision) (ap cl mp ml : Int),
      (ap ≥ mp → checkRiskManagement d ap cl mp ml =
        ⟨false, some ("Maximum concurrent positions (" ++ toString mp ++ ") reached")⟩) ∧
      (ap < mp → cl ≥ ml → checkRiskManagement d ap cl mp ml =
        ⟨false, some (toString ml ++ " consecutive losses - system paused")⟩) ∧
      (ap < mp → cl < ml →
        d.judge_scores.gpt.risk_reward < 3/2 → d.judge_scores.gemini.risk_reward < 3/2 →
        checkRiskManagement d ap cl mp ml =
          ⟨false, some "Risk/Reward below minimum threshold (1.5)"⟩) ∧
      (ap < mp → cl < ml →
        (3/2 ≤ d.judge_scores.gpt.risk_reward ∨ 3/2 ≤ d.judge_scores.gemini.risk_reward) →
        checkRiskManagement d ap cl mp ml = ⟨true, none⟩) ∧
      (∀ rc : RiskCheck, rc.allowed = false →
        (applyRiskOverride d rc).decision = Direction.HOLD ∧
        (applyRiskOverride d rc).reasoning =
          d.reasoning ++ " [Risk Override: " ++ rc.reason.getD "undefined" ++ "]" ∧
        (applyRiskOverride d rc).symbol = d.symbol ∧
        (applyRiskOverride d rc).timeframe = d.timeframe ∧
        (applyRiskOverride d rc).entry_trigger = d.entry_trigger ∧
        (applyRiskOverride d rc).invalidation = d.invalidation ∧
        (applyRiskOverride d rc).risk_percent = d.risk_percent ∧
        (applyRiskOverride d rc).alternate_scenario = d.alternate_scenario ∧
        (applyRiskOverride d rc).state = d.state ∧
        (applyRiskOverride d rc).selected_scenario = d.selected_scenario ∧
        (applyRiskOverride d rc).judge_scores = d.judge_scores) ∧
      (∀ rc : RiskCheck, rc.allowed = true → applyRiskOverride d rc = d) := by
  intro d ap cl mp ml
  refine ⟨?_, ?_, ?_, ?_, ?_, ?_⟩
  · intro h1
    simp [checkRiskManagement, h1]
  · intro h1 h2
    simp [checkRiskManagement, not_le_of_gt (lt_of_le_of_lt (le_refl ap) h1), h2]
  · intro h1 h2 h3 h4
    rw [checkRiskManagement]
    rw [if_neg (not_le.mpr h1), if_neg (not_le.mpr h2), if_pos ⟨h3, h4⟩]
  · intro h1 h2 h3
    rw [checkRiskManagement]
    rw [if_neg (not_le.mpr h1), if_neg (not_le.mpr h2), if_neg ?_]
    intro hcon
    rcases h3 with h | h
    · exact absurd h (not_le.mpr hcon.1)
    · exact absurd h (not_le.mpr hcon.2)
  · intro rc hrc
    cases rc with
    | mk allowed reason =>
      cases hrc
      cases reason <;>
        refine ⟨rfl, rfl, rfl, rfl, rfl, rfl, rfl, rfl, rfl, rfl, rfl⟩
  · intro rc hrc
    cases rc with
    | mk allowed reason =>
      cases hrc
      rfl

/-- A concrete directional decision used as witness input. -/
def sampleDecision : FinalDecision :=
  { symbol := "BTCUSDT"
    timeframe := "4H"
    decision := Direction.LONG
    entry_trigger := "break above 65000"
    invalidation := "close below 62000"
    risk_percent := 1
    alternate_scenario := "correction b-wave"
    state := TradingState.BREAKOUT_WATCH
    selected_scenario := Scenario.gpt
    judge_scores := ⟨scoreValid4Stop1, scoreValid4Stop2⟩
    reasoning := "base reasoning" }

/-- Witness for the C5 theorem: the boundary case `activePositions =
maxConcurrentPositions = 3` blocks with the positions reason, and applying
the override forces `HOLD`. -/
theorem checkRiskManagement_gate_spec_witness :
    checkRiskManagement sampleDecision 3 0 3 3 =
      ⟨false, some "Maximum concurrent positions (3) reached"⟩ ∧
    (applyRiskOverride sampleDecision ⟨false, some "stop"⟩).decision = Direction.HOLD := by
  constructor
  · exact (checkRiskManagement_gate_spec sampleDecision 3 0 3 3).1 (by norm_num)
  · exact ((checkRiskManagement_gate_spec sampleDecision 3 0 3 3).2.2.2.2.1
      ⟨false, some "stop"⟩ rfl).1

/-- Claim C9: when the primary proposal's label is the general-chat marker
"일반 대화", the judge's result has direction `HOLD`, risk percent 0, state
`WAITING` and two rule-valid zero-total scores; it does not depend on the
evaluator outcomes (scoring is skipped), and the two outcomes of the
random tie-break agree on every field except the selected tag, the
alternate-scenario label and the reasoning text. -/
theorem judgeScenarios_generalChat :
    ∀ (g : GPTOutput) (gm : GeminiAltOutput) (sym tf : String) (st : TradingState)
      (rc : Bool) (e1 e2 e1a e2a : Except String EvalOutput),
      g.scenario_label = "일반 대화" →
      ((judgeScenarios g gm sym tf st rc e1 e2).decision = Direction.HOLD ∧
       (judgeScenarios g gm sym tf st rc e1 e2).risk_percent = 0 ∧
       (judgeScenarios g gm sym tf st rc e1 e2).state = TradingState.WAITING ∧
       (judgeScenarios g gm sym tf st rc e1 e2).judge_scores.gpt.rule_validity = true ∧
       (judgeScenarios g gm sym tf st rc e1 e2).judge_scores.gpt.total_score = 0 ∧
       (judgeScenarios g gm sym tf st rc e1 e2).judge_scores.gemini.rule_validity = true ∧
       (judgeScenarios g gm sym tf st rc e1 e2).judge_scores.gemini.total_score = 0 ∧
       judgeScenarios g gm sym tf st rc e1 e2 = judgeScenarios g gm sym tf st rc e1a e2a ∧
       (judgeScenarios g gm sym tf st true e1 e2).symbol =
         (judgeScenarios g gm sym tf st false e1 e2).symbol ∧
       (judgeScenarios g gm sym tf st true e1 e2).timeframe =
         (judgeScenarios g gm sym tf st false e1 e2).timeframe ∧
       (judgeScenarios g gm sym tf st true e1 e2).decision =
         (judgeScenarios g gm sym tf st false e1 e2).decision ∧
       (judgeScenarios g gm sym tf st true e1 e2).entry_trigger =
         (judgeScenarios g gm sym tf st false e1 e2).entry_trigger ∧
       (judgeScenarios g gm sym tf st true e1 e2).invalidation =
         (judgeScenarios g gm sym tf st false e1 e2).invalidation ∧
       (judgeScenarios g gm sym tf st true e1 e2).risk_percent =
         (judgeScenarios g gm sym tf st false e1 e2).risk_percent ∧
       (judgeScenarios g gm sym tf st true e1 e2).state =
         (judgeScenarios g gm sym tf st false e1 e2).state ∧
       (judgeScenarios g gm sym tf st true e1 e2).judge_scores =
         (judgeScenarios g gm sym tf st false e1 e2).judge_scores) := by
  intro g gm sym tf st rc e1 e2 e1a e2a h
  cases rc <;> simp [judgeScenarios, h, generalChatScore]

/-- A concrete general-chat primary output. -/
def sampleChatGPTOutput : GPTOutput :=
  { direction := Direction.HOLD
    scenario_label := "일반 대화"
    confirmation_trigger := "없음"
    invalidation_level := "없음"
    risk_reward_estimate := 0
    rule_citations := []
    explanation := some "그냥 인사였어" }

/-- A concrete alternative output paired with the general-chat primary. -/
def sampleGeminiOutput : GeminiAltOutput :=
  { direction := Direction.SHORT
    scenario_label := "하락 조정"
    confirmation_trigger := "트리거"
    invalidation_level := "무효화"
    risk_reward_estimate := 2
    rule_citations := []
    alternative_reasoning := "다른 관점" }

/-- Witness for the C9 theorem at a concrete general-chat exchange. -/
theorem judgeScenarios_generalChat_witness :
    sampleChatGPTOutput.scenario_label = "일반 대화" ∧
    (judgeScenarios sampleChatGPTOutput sampleGeminiOutput "BTCUSDT" "4H"
        TradingState.BREAKOUT_WATCH true (Except.error "a") (Except.error "b")).decision =
      Direction.HOLD :=
  ⟨rfl,
    (judgeScenarios_generalChat sampleChatGPTOutput sampleGeminiOutput "BTCUSDT" "4H"
      TradingState.BREAKOUT_WATCH true (Except.error "a") (Except.error "b")
      (Except.error "a") (Except.error "b") rfl).1⟩

/-- The chunk list of a type-filtered `searchKnowledge` call is the
type-filtered, truncated store reply, in store order. -/
theorem searchKnowledge_chunks_filter (resp : List (KnowledgeChunk × ℚ)) (t : ChunkType)
    (k : Nat) :
    (searchKnowledge resp k (some t) none).chunks
      = ((resp.map Prod.fst).filter (fun c => c.chunk_type = t)).take k := by
  simp only [searchKnowledge, List.filter_map, List.map_take]
  rfl

/-- Every element of a truncated filtered list satisfies the filter. -/
theorem all_filter_take (l : List KnowledgeChunk) (p : KnowledgeChunk → Bool) (n : Nat) :
    ((l.filter p).take n).all p = true := by
  rw [List.all_eq_true]
  intro c hc
  exact List.of_mem_filter (List.mem_of_mem_take hc)

/-- A truncated filtered list contains nothing satisfying a predicate
disjoint from the filter. -/
theorem countP_filter_take_disjoint (l : List KnowledgeChunk)
    (p q : KnowledgeChunk → Bool) (n : Nat) (hpq : ∀ c, p c → q c → False) :
    ((l.filter p).take n).countP q = 0 := by
  rw [List.countP_eq_zero]
  intro c hc hq
  exact hpq c (List.of_mem_filter (List.mem_of_mem_take hc)) hq

/-- Claim C7: with `topK = 8`, priority retrieval returns at most 8
fragments — at most 4 of category `rule`, at most 2 of category
`exception`, at most 2 of category `definition` — and it is exactly the
concatenation, rules first, then exceptions, then definitions, of each
store reply filtered to its category and truncated, each group keeping
its own reply (relevance) order. -/
theorem prioritySearch_topK8 (ruleReply excReply defReply : List (KnowledgeChunk × ℚ)) :
    (prioritySearch ruleReply excReply defReply 8).chunks.length ≤ 8 ∧
    (prioritySearch ruleReply excReply defReply 8).chunks.countP
      (fun c => c.chunk_type = ChunkType.rule) ≤ 4 ∧
    (prioritySearch ruleReply excReply defReply 8).chunks.countP
      (fun c => c.chunk_type = ChunkType.exception) ≤ 2 ∧
    (prioritySearch ruleReply excReply defReply 8).chunks.countP
      (fun c => c.chunk_type = ChunkType.definition) ≤ 2 ∧
    (prioritySearch ruleReply excReply defReply 8).chunks =
      ((ruleReply.map Prod.fst).filter (fun c => c.chunk_type = ChunkType.rule)).take 4 ++
      ((excReply.map Prod.fst).filter (fun c => c.chunk_type = ChunkType.exception)).take 2 ++
      ((defReply.map Prod.fst).filter (fun c => c.chunk_type = ChunkType.definition)).take 2 ∧
    (((ruleReply.map Prod.fst).filter (fun c => c.chunk_type = ChunkType.rule)).take 4).all
      (fun c => c.chunk_type = ChunkType.rule) = true ∧
    (((excReply.map Prod.fst).filter (fun c => c.chunk_type = ChunkType.exception)).take 2).all
      (fun c => c.chunk_type = ChunkType.exception) = true ∧
    (((defReply.map Prod.fst).filter (fun c => c.chunk_type = ChunkType.definition)).take 2).all
      (fun c => c.chunk_type = ChunkType.definition) = true := by
  have hA := searchKnowledge_chunks_filter ruleReply ChunkType.rule 4
  have hB := searchKnowledge_chunks_filter excReply ChunkType.exception 2
  have hC := searchKnowledge_chunks_filter defReply ChunkType.definition 2
  have hlenA : (((ruleReply.map Prod.fst).filter
      (fun c => c.chunk_type = ChunkType.rule)).take 4).length ≤ 4 :=
    List.length_take_le _ _
  have hlenB : (((excReply.map Prod.fst).filter
      (fun c => c.chunk_type = ChunkType.exception)).take 2).length ≤ 2 :=
    List.length_take_le _ _
  have hlenC : (((defReply.map Prod.fst).filter
      (fun c => c.chunk_type = ChunkType.definition)).take 2).length ≤ 2 :=
    List.length_take_le _ _
  have hchunks : (prioritySearch ruleReply excReply defReply 8).chunks =
      ((ruleReply.map Prod.fst).filter (fun c => c.chunk_type = ChunkType.rule)).take 4 ++
      ((excReply.map Prod.fst).filter (fun c => c.chunk_type = ChunkType.exception)).take 2 ++
      ((defReply.map Prod.fst).filter (fun c => c.chunk_type = ChunkType.definition)).take 2 := by
    show ((searchKnowledge ruleReply (8 / 2) (some ChunkType.rule) none).chunks ++
        (searchKnowledge excReply (8 / 4) (some ChunkType.exception) none).chunks ++
        (searchKnowledge defReply (8 / 4) (some ChunkType.definition) none).chunks).take 8 = _
    rw [show (8 : Nat) / 2 = 4 from rfl, show (8 : Nat) / 4 = 2 from rfl, hA, hB, hC]
    apply List.take_of_length_le
    simp only [List.length_append]
    omega
  refine ⟨?_, ?_, ?_, ?_, hchunks, all_filter_take _ _ _, all_filter_take _ _ _,
    all_filter_take _ _ _⟩
  · rw [hchunks]
    simp only [List.length_append]
    omega
  · rw [hchunks]
    simp only [List.countP_append]
    have h1 : (((ruleReply.map Prod.fst).filter (fun c => c.chunk_type = ChunkType.rule)).take
        4).countP (fun c => c.chunk_type = ChunkType.rule) ≤ 4 :=
      le_trans (List.countP_le_length _) hlenA
    have h2 := countP_filter_take_disjoint (excReply.map Prod.fst)
      (fun c => c.chunk_type = ChunkType.exception)
      (fun c => c.chunk_type = ChunkType.rule) 2
      (by intro c h1 h2; simp at h1 h2; rw [h1] at h2; cases h2)
    have h3 := countP_filter_take_disjoint (defReply.map Prod.fst)
      (fun c => c.chunk_type = ChunkType.definition)
      (fun c => c.chunk_type = ChunkType.rule) 2
      (by intro c h1 h2; simp at h1 h2; rw [h1] at h2; cases h2)
    omega
  · rw [hchunks]
    simp only [List.countP_append]
    have h1 := countP_filter_take_disjoint (ruleReply.map Prod.fst)
      (fun c => c.chunk_type = ChunkType.rule)
      (fun c => c.chunk_type = ChunkType.exception) 4
      (by intro c h1 h2; simp at h1 h2; rw [h1] at h2; cases h2)
    have h2 : (((excReply.map Prod.fst).filter
        (fun c => c.chunk_type = ChunkType.exception)).take 2).countP
        (fun c => c.chunk_type = ChunkType.exception) ≤ 2 :=
      le_trans (List.countP_le_length _) hlenB
    have h3 := countP_filter_take_disjoint (defReply.map Prod.fst)
      (fun c => c.chunk_type = ChunkType.definition)
      (fun c => c.chunk_type = ChunkType.exception) 2
      (by intro c h1 h2; simp at h1 h2; rw [h1] at h2; cases h2)
    omega
  · rw [hchunks]
    simp only [List.countP_append]
    have h1 := countP_filter_take_disjoint (ruleReply.map Prod.fst)
      (fun c => c.chunk_type = ChunkType.rule)
      (fun c => c.chunk_type = ChunkType.definition) 4
      (by intro c h1 h2; simp at h1 h2; rw [h1] at h2; cases h2)
    have h2 := countP_filter_take_disjoint (excReply.map Prod.fst)
      (fun c => c.chunk_type = ChunkType.exception)
      (fun c => c.chunk_type = ChunkType.definition) 2
      (by intro c h1 h2; simp at h1 h2; rw [h1] at h2; cases h2)
    have h3 : (((defReply.map Prod.fst).filter
        (fun c => c.chunk_type = ChunkType.definition)).take 2).countP
        (fun c => c.chunk_type = ChunkType.definition) ≤ 2 :=
      le_trans (List.countP_le_length _) hlenC
    omega

/-- Key membership after a `mapSet`. -/
theorem mapSet_keys_mem (k : String) (v : KnowledgeChunk × ℚ) :
    ∀ (m : List HybridEntry) (x : String),
      x ∈ (mapSet k v m).map Prod.fst ↔ x = k ∨ x ∈ m.map Prod.fst := by
  intro m
  induction m with
  | nil => simp [mapSet]
  | cons e rest ih =>
    intro x
    by_cases h : e.1 = k
    · simp only [mapSet, h, if_true, ite_true, eq_self_iff_true, List.map_cons, List.mem_cons]
      tauto
    · simp only [mapSet, if_neg h, List.map_cons, List.mem_cons, ih]
      tauto

/-- `mapSet` preserves distinctness of keys. -/
theorem mapSet_keys_nodup (k : String) (v : KnowledgeChunk × ℚ) :
    ∀ m : List HybridEntry, (m.map Prod.fst).Nodup → ((mapSet k v m).map Prod.fst).Nodup := by
  intro m
  induction m with
  | nil => simp [mapSet]
  | cons e rest ih =>
    intro hnd
    simp only [List.map_cons, List.nodup_cons] at hnd
    by_cases h : e.1 = k
    · simp only [mapSet, if_pos h, List.map_cons, List.nodup_cons]
      exact ⟨h ▸ hnd.1, hnd.2⟩
    · simp only [mapSet, if_neg h, List.map_cons, List.nodup_cons]
      refine ⟨?_, ih hnd.2⟩
      rw [mapSet_keys_mem]
      rintro (he | he)
      · exact h he
      · exact hnd.1 he

/-- `mapSet` preserves any entry property also enjoyed by the new entry. -/
theorem mapSet_forall (P : HybridEntry → Prop) (k : String) (v : KnowledgeChunk × ℚ) :
    ∀ m : List HybridEntry, (∀ e ∈ m, P e) → P (k, v) →
      ∀ e ∈ mapSet k v m, P e := by
  intro m
  induction m with
  | nil =>
    intro _ hkv e he
    simp only [mapSet, List.mem_singleton] at he
    exact he ▸ hkv
  | cons a rest ih =>
    intro hm hkv e he
    by_cases h : a.1 = k
    · rw [mapSet, if_pos h] at he
      rcases List.mem_cons.mp he with he | he
      · exact he ▸ hkv
      · exact hm e (List.mem_cons_of_mem a he)
    · rw [mapSet, if_neg h] at he
      rcases List.mem_cons.mp he with he | he
      · exact he ▸ hm a (List.mem_cons_self a rest)
      · exact ih (fun x hx => hm x (List.mem_cons_of_mem a hx)) hkv e he

/-- `mapHas` decides key membership. -/
theorem mapHas_iff (k : String) :
    ∀ m : List HybridEntry, mapHas k m = true ↔ k ∈ m.map Prod.fst := by
  intro m
  induction m with
  | nil => simp [mapHas]
  | cons e rest ih => simp [mapHas, ih]

/-- Folding the vector loop preserves an entry property that all inserted
vector entries enjoy. -/
theorem foldl_vectorStep_forall (P : HybridEntry → Prop) :
    ∀ (vr : List (KnowledgeChunk × ℚ)) (m0 : List HybridEntry),
      (∀ e ∈ m0, P e) → (∀ p ∈ vr, P (p.1.id, (p.1, p.2))) →
      ∀ e ∈ vr.foldl vectorStep m0, P e := by
  intro vr
  induction vr with
  | nil => intro m0 h0 _ e he; exact h0 e he
  | cons p rest ih =>
    intro m0 h0 hv e he
    exact ih (vectorStep m0 p)
      (mapSet_forall P p.1.id (p.1, p.2) m0 h0 (hv p (List.mem_cons_self p rest)))
      (fun q hq => hv q (List.mem_cons_of_mem p hq)) e he

/-- Key membership after folding the vector loop. -/
theorem foldl_vectorStep_keys :
    ∀ (vr : List (KnowledgeChunk × ℚ)) (m0 : List HybridEntry) (x : String),
      x ∈ (vr.foldl vectorStep m0).map Prod.fst ↔
        x ∈ m0.map Prod.fst ∨ ∃ p ∈ vr, p.1.id = x := by
  intro vr
  induction vr with
  | nil => simp
  | cons p rest ih =>
    intro m0 x
    rw [List.foldl_cons, ih]
    show x ∈ (mapSet p.1.id (p.1, p.2) m0).map Prod.fst ∨ _ ↔ _
    rw [mapSet_keys_mem]
    simp only [List.mem_cons]
    constructor
    · rintro ((h | h) | ⟨q, hq, hqx⟩)
      · exact Or.inr ⟨p, Or.inl rfl, h.symm⟩
      · exact Or.inl h
      · exact Or.inr ⟨q, Or.inr hq, hqx⟩
    · rintro (h | ⟨q, (hq | hq), hqx⟩)
      · exact Or.inl (Or.inr h)
      · exact Or.inl (Or.inl (hq ▸ hqx).symm)
      · exact Or.inr ⟨q, hq, hqx⟩

/-- Folding the vector loop preserves distinctness of keys. -/
theorem foldl_vectorStep_nodup :
    ∀ (vr : List (KnowledgeChunk × ℚ)) (m0 : List HybridEntry),
      (m0.map Prod.fst).Nodup → ((vr.foldl vectorStep m0).map Prod.fst).Nodup := by
  intro vr
  induction vr with
  | nil => intro m0 h; exact h
  | cons p rest ih =>
    intro m0 h
    exact ih (vectorStep m0 p) (mapSet_keys_nodup p.1.id (p.1, p.2) m0 h)

/-- Folding the keyword loop preserves an entry property enjoyed by every
keyword entry whose id is absent from the initial map. -/
theorem foldl_keywordStep_forall (P : HybridEntry → Prop) :
    ∀ (kd : List KnowledgeChunk) (m0 : List HybridEntry),
      (∀ e ∈ m0, P e) →
      (∀ c ∈ kd, c.id ∉ m0.map Prod.fst → P (c.id, (c, 1/2))) →
      ∀ e ∈ kd.foldl keywordStep m0, P e := by
  intro kd
  induction kd with
  | nil => intro m0 h0 _ e he; exact h0 e he
  | cons c rest ih =>
    intro m0 h0 hk e he
    rw [List.foldl_cons] at he
    by_cases h : mapHas c.id m0
    · rw [keywordStep, if_pos h] at he
      exact ih m0 h0 (fun c' hc' hn => hk c' (List.mem_cons_of_mem c hc') hn) e he
    · rw [keywordStep, if_neg h] at he
      have hnotin : c.id ∉ m0.map Prod.fst := fun hin => h ((mapHas_iff c.id m0).mpr hin)
      refine ih (m0 ++ [(c.id, (c, 1/2))]) ?_ ?_ e he
      · intro x hx
        rcases List.mem_append.mp hx with hx | hx
        · exact h0 x hx
        · rw [List.mem_singleton] at hx
          exact hx ▸ hk c (List.mem_cons_self c rest) hnotin
      · intro c' hc' hn
        refine hk c' (List.mem_cons_of_mem c hc') (fun hin => hn ?_)
        rw [List.map_append, List.mem_append]
        exact Or.inl hin

/-- Folding the keyword loop preserves distinctness of keys. -/
theorem foldl_keywordStep_nodup :
    ∀ (kd : List KnowledgeChunk) (m0 : List HybridEntry),
      (m0.map Prod.fst).Nodup → ((kd.foldl keywordStep m0).map Prod.fst).Nodup := by
  intro kd
  induction kd with
  | nil => intro m0 h; exact h
  | cons c rest ih =>
    intro m0 h
    rw [List.foldl_cons]
    by_cases hc : mapHas c.id m0
    · rw [keywordStep, if_pos hc]
      exact ih m0 h
    · rw [keywordStep, if_neg hc]
      refine ih _ ?_
      rw [List.map_append, List.nodup_append]
      refine ⟨h, List.nodup_singleton _, ?_⟩
      intro x hx hx'
      rw [List.map_singleton, List.mem_singleton] at hx'
      subst hx'
      exact hc ((mapHas_iff c.id m0).mpr hx)

/-- Every entry of the combined map is either a vector result keyed by its
fragment id with its vector score, or a keyword-only fragment with score
0.5 whose id no vector result carries. -/
theorem hybridCombine_forall (vr : List (KnowledgeChunk × ℚ)) (kd : List KnowledgeChunk) :
    ∀ e ∈ hybridCombine vr kd,
      (∃ p ∈ vr, e = (p.1.id, (p.1, p.2))) ∨
      (e.2.2 = 1/2 ∧ e.2.1 ∈ kd ∧ e.1 = e.2.1.id ∧ ∀ p ∈ vr, p.1.id ≠ e.1) := by
  apply foldl_keywordStep_forall
  · apply foldl_vectorStep_forall
    · intro e he
      exact absurd he (List.not_mem_nil e)
    · intro p hp
      exact Or.inl ⟨p, hp, rfl⟩
  · intro c hc hnot
    right
    refine ⟨rfl, hc, rfl, ?_⟩
    intro p hp hpe
    have hkey : p.1.id ∈ ((vr.foldl vectorStep []).map Prod.fst) :=
      (foldl_vectorStep_keys vr [] p.1.id).mpr (Or.inr ⟨p, hp, rfl⟩)
    exact hnot ((show p.1.id = c.id from hpe) ▸ hkey)

/-- The combined map has pairwise-distinct keys. -/
theorem hybridCombine_keys_nodup (vr : List (KnowledgeChunk × ℚ))
    (kd : List KnowledgeChunk) : ((hybridCombine vr kd).map Prod.fst).Nodup :=
  foldl_keywordStep_nodup kd _ (foldl_vectorStep_nodup vr [] (by simp))

/-- Claim C8: hybrid search never returns the same fragment id twice, a
fragment found by both searches keeps its vector similarity score, a
keyword-only fragment gets the fixed fallback score 0.5, and the output
is score-descending and truncated to `topK`. -/
theorem hybridSearch_spec (vr : List (KnowledgeChunk × ℚ)) (kd : List KnowledgeChunk)
    (topK : Nat) :
    ((hybridSearch vr kd topK).chunks.map (fun c => c.id)).Nodup ∧
    (hybridSearch vr kd topK).chunks.length ≤ topK ∧
    (hybridSearch vr kd topK).similarity_scores.Pairwise (fun a b => b ≤ a) ∧
    (∀ c s, (c, s) ∈ (hybridSearch vr kd topK).chunks.zip
        (hybridSearch vr kd topK).similarity_scores →
      (∃ p ∈ vr, p.1 = c ∧ p.2 = s) ∨
      (s = 1/2 ∧ c ∈ kd ∧ ∀ p ∈ vr, p.1.id ≠ c.id)) := by
  have hperm : List.Perm ((hybridCombine vr kd).insertionSort hybridGE)
      (hybridCombine vr kd) :=
    List.perm_insertionSort hybridGE (hybridCombine vr kd)
  have hsub : List.Sublist (((hybridCombine vr kd).insertionSort hybridGE).take topK)
      ((hybridCombine vr kd).insertionSort hybridGE) :=
    List.take_sublist topK _
  have hmem : ∀ e ∈ ((hybridCombine vr kd).insertionSort hybridGE).take topK,
      e ∈ hybridCombine vr kd :=
    fun e he => hperm.mem_iff.mp (hsub.subset he)
  have hprov := hybridCombine_forall vr kd
  have hidkey : ∀ e ∈ hybridCombine vr kd, e.2.1.id = e.1 := by
    intro e he
    rcases hprov e he with ⟨p, _, rfl⟩ | ⟨_, _, hk, _⟩
    · rfl
    · exact hk.symm
  have hchunks : (hybridSearch vr kd topK).chunks =
      (((hybridCombine vr kd).insertionSort hybridGE).take topK).map (fun e => e.2.1) := rfl
  have hscores : (hybridSearch vr kd topK).similarity_scores =
      (((hybridCombine vr kd).insertionSort hybridGE).take topK).map (fun e => e.2.2) := rfl
  refine ⟨?_, ?_, ?_, ?_⟩
  · rw [hchunks, List.map_map]
    have hcongr : (((hybridCombine vr kd).insertionSort hybridGE).take topK).map
        ((fun c => c.id) ∘ (fun e : HybridEntry => e.2.1)) =
        (((hybridCombine vr kd).insertionSort hybridGE).take topK).map Prod.fst :=
      List.map_congr_left (fun e he => hidkey e (hmem e he))
    rw [hcongr]
    have hnd : ((hybridCombine vr kd).map Prod.fst).Nodup := hybridCombine_keys_nodup vr kd
    have hndsorted : ((((hybridCombine vr kd).insertionSort hybridGE)).map Prod.fst).Nodup :=
      ((hperm.map Prod.fst).nodup_iff).mpr hnd
    exact List.Nodup.sublist (hsub.map Prod.fst) hndsorted
  · rw [hchunks, List.length_map]
    exact List.length_take_le _ _
  · rw [hscores]
    have hsorted : (((hybridCombine vr kd).insertionSort hybridGE)).Pairwise hybridGE :=
      List.sorted_insertionSort hybridGE (hybridCombine vr kd)
    exact (hsorted.sublist hsub).map _ (fun a b h => h)
  · intro c s hcs
    rw [hchunks, hscores, List.zip_map'] at hcs
    rcases List.mem_map.mp hcs with ⟨e, he, heq⟩
    have hc : e.2.1 = c := congrArg Prod.fst heq
    have hs : e.2.2 = s := congrArg Prod.snd heq
    rcases hprov e (hmem e he) with ⟨p, hp, rfl⟩ | ⟨h12, hkd, hk, hne⟩
    · exact Or.inl ⟨p, hp, hc, hs⟩
    · refine Or.inr ⟨hs ▸ h12, hc ▸ hkd, ?_⟩
      intro p hp
      rw [← hc, ← hk]
      exact hne p hp

/-- A concrete rule fragment found by the vector search. -/
def chunkRuleA : KnowledgeChunk :=
  ⟨"frag-a", "doc1", ChunkType.rule, "Rule 1", "wave two never retraces fully", 3⟩

/-- A concrete fragment found only by the keyword search. -/
def chunkDefB : KnowledgeChunk :=
  ⟨"frag-b", "doc1", ChunkType.definition, "Definition 2", "an impulse has five waves", 5⟩

/-- Witness for the C8 theorem: with one vector hit (score 0.9, also a
keyword match) and one keyword-only fragment, the vector hit keeps its
vector score in the output. -/
theorem hybridSearch_spec_witness :
    ((chunkRuleA, (9 : ℚ)/10) ∈
      (hybridSearch [(chunkRuleA, 9/10)] [chunkRuleA, chunkDefB] 8).chunks.zip
        (hybridSearch [(chunkRuleA, 9/10)] [chunkRuleA, chunkDefB] 8).similarity_scores) ∧
    ((∃ p ∈ [(chunkRuleA, (9 : ℚ)/10)], p.1 = chunkRuleA ∧ p.2 = 9/10) ∨
     ((9 : ℚ)/10 = 1/2 ∧ chunkRuleA ∈ [chunkRuleA, chunkDefB] ∧
       ∀ p ∈ [(chunkRuleA, (9 : ℚ)/10)], p.1.id ≠ chunkRuleA.id)) := by
  have hm : (chunkRuleA, (9 : ℚ)/10) ∈
      (hybridSearch [(chunkRuleA, 9/10)] [chunkRuleA, chunkDefB] 8).chunks.zip
        (hybridSearch [(chunkRuleA, 9/10)] [chunkRuleA, chunkDefB] 8).similarity_scores := by
    norm_num [hybridSearch, hybridCombine, vectorStep, keywordStep, mapSet, mapHas,
      chunkRuleA, chunkDefB, List.insertionSort, List.orderedInsert, hybridGE]
  exact ⟨hm,
    (hybridSearch_spec [(chunkRuleA, 9/10)] [chunkRuleA, chunkDefB] 8).2.2.2
      chunkRuleA (9/10) hm⟩
